import Mathlib

/-!
NeuroForgeOS — formal model of the orchestrator and sandbox runner

Shallow embedding of the Python sources:
  * `api/graph_core.py`    — orchestration state machine (writer / executor / fixer
    nodes, routing, error signature);
  * `api/agents/code_executor.py` — orchestrator-side `execute` (payload assembly,
    adaptive timeout, response normalization, missing-module retry);
  * `runner/app.py`        — sandbox runner `/run` endpoint (container lifecycle,
    cleanup paths).

External collaborators (the Gemini generator/repairer, the Pinecone memory
adapter, the HTTP transport, the Docker CLI) are modelled as oracles: values or
outcome streams supplied as parameters.  Python exceptions are modelled with
`Except`; machine integers are `Int`/`Nat` (Python integers are unbounded, so no
wrap-around is introduced); SHA-1 state words are `Nat` reduced `% 2^32` exactly
where the algorithm reduces them.
-/

set_option maxRecDepth 10000

namespace NeuroForge

/-! ## Python string primitives -/

/-- Characters Python `str.split()` (no argument) treats as whitespace
(the ASCII whitespace characters; all inputs in this development are ASCII). -/
def pyIsSpace (c : Char) : Bool :=
  c = ' ' || c = '\t' || c = '\n' || c = '\r' || c = Char.ofNat 11 || c = Char.ofNat 12

/-- ASCII decimal digit: the `\d` class of the regexes in `graph_core.py`
restricted to ASCII (all stderr texts considered here are ASCII). -/
def isDigitCh (c : Char) : Bool := '0' ≤ c && c ≤ '9'

def isAsciiLetter (c : Char) : Bool :=
  ('A' ≤ c && c ≤ 'Z') || ('a' ≤ c && c ≤ 'z')

/-- The backslash character. -/
def bslash : Char := Char.ofNat 92

/-- Single-quote character. -/
def squote : Char := Char.ofNat 39

/-- Double-quote character. -/
def dquote : Char := Char.ofNat 34

/-! ## `_normalize_error` (api/graph_core.py, lines 23-36)

The Python source applies, in order:
```
s = re.sub(r"[A-Za-z]:\\\\[^\\s]+", "", s)   # intended: Windows paths
s = re.sub(r"/[^\\s]+", "", s)               # intended: Unix paths
s = re.sub(r"\d+", "N", s)
return " ".join(s.split())[:1024]
```
Note on the first two patterns: they are ordinary *raw* strings, so after
Python string processing the regex source texts are `[A-Za-z]:\\\\[^\\s]+`
and `/[^\\s]+`.  To the regex engine `\\\\` is two literal backslashes and the
class `[^\\s]` contains every character except a literal backslash and the
letter `s` (NOT "non-whitespace").  The functions below embed that actual
behaviour, matching left to right, each match replaced by the empty string
and scanning resumed after the match, exactly as `re.sub` does. -/

/-- Membership in the character class `[^\\s]` as the regex engine sees it:
anything except a backslash and the lowercase letter `s`. -/
def pathClassChar (c : Char) : Bool := !(c = bslash || c = 's')

/-- Fuel-indexed left-to-right `re.sub` scan for the Windows-path pattern.
Each recursive call shortens the list, so fuel `= l.length` never runs out
(structural recursion on fuel keeps the function kernel-reducible). -/
def subWinPathsF : Nat → List Char → List Char
  | 0, l => l
  | _ + 1, [] => []
  | fuel + 1, c :: rest =>
    match rest with
    | c1 :: c2 :: c3 :: rest2 =>
      if isAsciiLetter c ∧ c1 = ':' ∧ c2 = bslash ∧ c3 = bslash
          ∧ rest2.takeWhile pathClassChar ≠ [] then
        subWinPathsF fuel (rest2.dropWhile pathClassChar)
      else
        c :: subWinPathsF fuel rest
    | _ => c :: subWinPathsF fuel rest

/-- Embedding of `re.sub(r"[A-Za-z]:\\\\[^\\s]+", "", s)`: letter, colon, two literal
backslashes, then one or more `pathClassChar`s; matches removed. -/
def subWinPaths (l : List Char) : List Char := subWinPathsF l.length l

/-- Fuel-indexed scan for the Unix-path pattern. -/
def subUnixPathsF : Nat → List Char → List Char
  | 0, l => l
  | _ + 1, [] => []
  | fuel + 1, c :: rest =>
    if c = '/' ∧ rest.takeWhile pathClassChar ≠ [] then
      subUnixPathsF fuel (rest.dropWhile pathClassChar)
    else
      c :: subUnixPathsF fuel rest

/-- Embedding of `re.sub(r"/[^\\s]+", "", s)`: slash then one or more `pathClassChar`s;
matches removed. -/
def subUnixPaths (l : List Char) : List Char := subUnixPathsF l.length l

/-- Fuel-indexed scan for `\d+`. -/
def collapseDigitsF : Nat → List Char → List Char
  | 0, l => l
  | _ + 1, [] => []
  | fuel + 1, c :: rest =>
    if isDigitCh c then
      'N' :: collapseDigitsF fuel (rest.dropWhile isDigitCh)
    else
      c :: collapseDigitsF fuel rest

/-- Embedding of `re.sub(r"\d+", "N", s)`: every maximal run of decimal digits becomes `N`. -/
def collapseDigits (l : List Char) : List Char := collapseDigitsF l.length l

/-- Fuel-indexed whitespace split. -/
def splitWsF : Nat → List Char → List (List Char)
  | 0, _ => []
  | _ + 1, [] => []
  | fuel + 1, c :: rest =>
    if pyIsSpace c then splitWsF fuel rest
    else (c :: rest.takeWhile (fun d => !pyIsSpace d))
      :: splitWsF fuel (rest.dropWhile (fun d => !pyIsSpace d))

/-- Python `s.split()`: maximal runs of non-whitespace, discarding empty pieces. -/
def splitWs (l : List Char) : List (List Char) := splitWsF l.length l

/-- Embedding of `_normalize_error(err)`: strip (what the regexes actually match of) paths,
collapse digit runs to `N`, collapse whitespace via `" ".join(s.split())`,
clip to 1024 characters.  The `try/except` wrapper in the source cannot fire:
the body is pure string manipulation. -/
def normalize_error (err : String) : String :=
  let s := subWinPaths err.data
  let s := subUnixPaths s
  let s := collapseDigits s
  let s := List.intercalate [' '] (splitWs s)
  String.mk (s.take 1024)

/-! ## SHA-1 (CPython `hashlib.sha1`), over byte lists -/

/-- The constant 2^32, the SHA-1 word modulus. -/
def w32 : Nat := 4294967296

/-- Rotate a 32-bit word (`x < 2^32`, `n ≤ 32`) left by `n` bits. -/
def rotl (n x : Nat) : Nat := x * 2 ^ n % w32 + x / 2 ^ (32 - n)

/-- Round function: choose / parity / majority / parity. -/
def sha1f (t b c d : Nat) : Nat :=
  if t < 20 then (b &&& c) ||| ((w32 - 1 - b) &&& d)
  else if t < 40 then b ^^^ c ^^^ d
  else if t < 60 then (b &&& c) ||| (b &&& d) ||| (c &&& d)
  else b ^^^ c ^^^ d

/-- Round constants. -/
def sha1k (t : Nat) : Nat :=
  if t < 20 then 1518500249
  else if t < 40 then 1859775393
  else if t < 60 then 2400959708
  else 3395469782

/-- Merkle–Damgård padding: `0x80`, zeros to 56 mod 64, 8-byte big-endian bit length. -/
def sha1Pad (msg : List Nat) : List Nat :=
  let len := msg.length
  let zeros := (119 - len % 64) % 64
  let bl := len * 8
  msg ++ [128] ++ List.replicate zeros 0 ++
    [bl / 2 ^ 56 % 256, bl / 2 ^ 48 % 256, bl / 2 ^ 40 % 256, bl / 2 ^ 32 % 256,
     bl / 2 ^ 24 % 256, bl / 2 ^ 16 % 256, bl / 2 ^ 8 % 256, bl % 256]

/-- Big-endian 32-bit words from bytes. -/
def bytesToWords : List Nat → List Nat
  | b0 :: b1 :: b2 :: b3 :: rest =>
    (b0 * 16777216 + b1 * 65536 + b2 * 256 + b3) :: bytesToWords rest
  | _ => []

/-- Fuel-indexed 16-word chunking. -/
def chunk16F : Nat → List Nat → List (List Nat)
  | 0, _ => []
  | _ + 1, [] => []
  | fuel + 1, w :: ws => ((w :: ws).take 16) :: chunk16F fuel ((w :: ws).drop 16)

/-- Split a word list into 16-word blocks. -/
def chunk16 (l : List Nat) : List (List Nat) := chunk16F l.length l

/-- Expand a 16-word block to the 80-word message schedule. -/
def sha1Schedule (block : List Nat) : Array Nat :=
  (List.range 64).foldl
    (fun w _ =>
      let i := w.size
      w.push (rotl 1
        ((w.getD (i - 3) 0) ^^^ (w.getD (i - 8) 0) ^^^ (w.getD (i - 14) 0) ^^^ (w.getD (i - 16) 0))))
    block.toArray

/-- One SHA-1 compression step over a block. -/
def sha1Compress (h : Nat × Nat × Nat × Nat × Nat) (block : List Nat) :
    Nat × Nat × Nat × Nat × Nat :=
  let w := sha1Schedule block
  let st := (List.range 80).foldl
    (fun st t =>
      let tmp := (rotl 5 st.1 + sha1f t st.2.1 st.2.2.1 st.2.2.2.1 + st.2.2.2.2
        + sha1k t + w.getD t 0) % w32
      (tmp, st.1, rotl 30 st.2.1, st.2.2.1, st.2.2.2.1))
    h
  ((h.1 + st.1) % w32, (h.2.1 + st.2.1) % w32, (h.2.2.1 + st.2.2.1) % w32,
   (h.2.2.2.1 + st.2.2.2.1) % w32, (h.2.2.2.2 + st.2.2.2.2) % w32)

def hexDigit (n : Nat) : Char :=
  if n < 10 then Char.ofNat (48 + n) else Char.ofNat (87 + n)

def hex8 (x : Nat) : List Char :=
  [hexDigit (x / 2 ^ 28 % 16), hexDigit (x / 2 ^ 24 % 16), hexDigit (x / 2 ^ 20 % 16),
   hexDigit (x / 2 ^ 16 % 16), hexDigit (x / 2 ^ 12 % 16), hexDigit (x / 2 ^ 8 % 16),
   hexDigit (x / 2 ^ 4 % 16), hexDigit (x % 16)]

/-- SHA-1 hex digest of a byte sequence. -/
def sha1Hex (msg : List Nat) : String :=
  let h := (chunk16 (bytesToWords (sha1Pad msg))).foldl sha1Compress
    (1732584193, 4023233417, 2562383102, 271733878, 3285377520)
  String.mk (hex8 h.1 ++ hex8 h.2.1 ++ hex8 h.2.2.1 ++ hex8 h.2.2.2.1 ++ hex8 h.2.2.2.2)

/-- UTF-8 encoding of one scalar value (`str.encode("utf-8")`). -/
def utf8Char (c : Char) : List Nat :=
  let n := c.toNat
  if n < 128 then [n]
  else if n < 2048 then [192 + n / 64, 128 + n % 64]
  else if n < 65536 then [224 + n / 4096, 128 + n / 64 % 64, 128 + n % 64]
  else [240 + n / 262144, 128 + n / 4096 % 64, 128 + n / 64 % 64, 128 + n % 64]

def utf8Encode (s : String) : List Nat := (s.data.map utf8Char).flatten

/-- Embedding of `_error_signature` (api/graph_core.py, lines 38-41): SHA-1 hex digest of
the UTF-8 encoding of the normalized error text. -/
def error_signature (err : String) : String :=
  sha1Hex (utf8Encode (normalize_error err))

/-! ## Sandbox runner (runner/app.py) -/

/-- Embedding of `SandboxConfig` (runner/app.py, lines 23-30). -/
structure SandboxConfig where
  filename : String
  image_env : String
  default_image : String
  execute : String
  preamble : Option String := none
  supports_requirements : Bool := false

/-- The `SANDBOX_CONFIG` table (runner/app.py, lines 33-66). -/
def SANDBOX_CONFIG : String → Option SandboxConfig
  | "python" => some
    { filename := "main.py", image_env := "SANDBOX_IMAGE_PYTHON",
      default_image := "python:3.10-slim",
      preamble := some "if [ -f requirements.txt ] && [ -s requirements.txt ]; then pip install --no-cache-dir -r requirements.txt; fi",
      execute := "python /workspace/main.py", supports_requirements := true }
  | "javascript" => some
    { filename := "main.js", image_env := "SANDBOX_IMAGE_NODE",
      default_image := "node:20-bullseye", execute := "node /workspace/main.js" }
  | "c" => some
    { filename := "main.c", image_env := "SANDBOX_IMAGE_C", default_image := "gcc:13",
      execute := "gcc main.c -std=c11 -O2 -o main && ./main" }
  | "cpp" => some
    { filename := "main.cpp", image_env := "SANDBOX_IMAGE_CPP", default_image := "gcc:13",
      execute := "g++ main.cpp -std=c++17 -O2 -o main && ./main" }
  | "java" => some
    { filename := "Main.java", image_env := "SANDBOX_IMAGE_JAVA",
      default_image := "openjdk:21-slim", execute := "javac Main.java && java Main" }
  | _ => none

/-- The shell command assembled in `_build_create_command` (lines 116-120):
`set -euo pipefail`, the optional preamble, and the execute snippet,
joined with `&&`. -/
def build_shell_command (cfg : SandboxConfig) : String :=
  String.intercalate " && "
    (["set -euo pipefail"]
      ++ (match cfg.preamble with | some p => [p] | none => [])
      ++ [cfg.execute])

/-- A `/run` request after pydantic validation (runner/app.py, lines 80-103):
the language is known, `0 < timeout ≤ 300`, requirement entries are stripped. -/
structure RunRequest where
  language : String
  code : String
  timeout : Int := 60
  requirements : List String := []        -- `None` is modelled as `[]`
  extra_requirements : List String := []
  network : Option String := none
  files_b64 : List (String × String) := []

/-- First-occurrence de-duplication: the `seen`-set loop of lines 234-239. -/
def dedupFirstAux (seen : List String) : List String → List String
  | [] => []
  | r :: rs =>
    if r ∈ seen then dedupFirstAux seen rs
    else r :: dedupFirstAux (r :: seen) rs

/-- Content written to `W/requirements.txt` (lines 227-240): truthy entries of
`requirements ++ extra_requirements`, first occurrences kept in order, joined
with newlines. -/
def requirementsFileContent (reqs extra : List String) : String :=
  String.intercalate "\n"
    (dedupFirstAux [] ((reqs.filter (· ≠ "")) ++ (extra.filter (· ≠ ""))))

/-- Exceptions a `subprocess.run` call (or file write) can raise inside `run_code`. -/
inductive SubprocExc where
  | timedOut            -- subprocess.TimeoutExpired (wall-clock limit hit)
  | fnf (msg : String)  -- FileNotFoundError (Docker CLI missing)
  | oth (msg : String)  -- any other exception
deriving DecidableEq

/-- Rendering `str(e)` of a `SubprocExc`, used when the message is interpolated. -/
def excStr : SubprocExc → String
  | .timedOut => "TimeoutExpired"
  | .fnf m => m
  | .oth m => m

/-- Outcome of one completed subprocess call. -/
structure ProcOut where
  rc : Int
  out : String
  err : String
deriving DecidableEq

/-- Environment oracle for one `/run` call: outcomes of the file writes and of
the four Docker CLI invocations, plus the artifact facts the OS supplies. -/
structure RunnerEnv where
  codeWrite : Except SubprocExc Unit       -- writing `cfg.filename`
  decodeFail : Option (String × String)    -- first b64 input file that fails to decode/write
  createRes : Except SubprocExc ProcOut    -- `docker create`
  cpRes : Except SubprocExc ProcOut        -- `docker cp W/. container:/workspace`
  startRes : Except SubprocExc ProcOut     -- `docker start -a` (timedOut ⇒ wall clock hit)
  cpBackRes : Except SubprocExc ProcOut    -- `docker cp container:/workspace temp_out`
  workspaceCopied : Bool                   -- `os.path.exists(workspace_path)`
  zipSize : Nat                            -- `os.path.getsize(archive_path)`
  zipB64 : String                          -- base64 of the produced archive

/-- The JSON object `/run` answers with. -/
structure RunnerResponse where
  returncode : Int
  stdout : String
  stderr : String
  artifacts_zip_b64 : Option String := none
  artifacts_note : Option String := none
deriving DecidableEq

/-- Result of the endpoint: a 400 (unknown language — unreachable after
validation) or a JSON response. -/
inductive RunOutcome where
  | http400 (detail : String)
  | resp (r : RunnerResponse)
deriving DecidableEq

/-- Resources owned by one `/run` call, observed after it returns:
does a container with the generated `nf_<12-hex>` name still exist, and
does the per-run workspace temp directory still exist? -/
structure RunnerWorld where
  container : Bool
  tempDir : Bool
deriving DecidableEq

/-- Response produced by the three `except` handlers of `run_code`
(lines 300-321); each of those handlers also force-removes the container. -/
def excResponse : SubprocExc → RunnerResponse
  | .timedOut => { returncode := 124, stdout := "", stderr := "Execution timed out." }
  | .fnf m => { returncode := 1, stdout := "", stderr := "Docker unavailable: " ++ m }
  | .oth m => { returncode := 1, stdout := "", stderr := "Runner error: " ++ m }

/-- The artifact-collection `try` block (lines 272-296): returns the
`artifacts_zip_b64` and `artifacts_note` fields of the response. -/
def artifactFields (env : RunnerEnv) (maxArtifactBytes : Nat) :
    Option String × Option String :=
  match env.cpBackRes with
  | .error e => (none, some ("Artifact packaging error: " ++ excStr e))
  | .ok cb =>
    if cb.rc = 0 then
      if env.workspaceCopied then
        if env.zipSize ≤ maxArtifactBytes then (some env.zipB64, none)
        else (none, some ("Artifacts exceed size limit (" ++ toString maxArtifactBytes ++ " bytes)."))
      else (none, none)
    else (none, some (if cb.err = "" then "Failed to copy workspace from container." else cb.err))

/-- Body of `run_code` (runner/app.py, lines 193-321), excluding the `finally`.
The returned `Bool` says whether the uniquely-named container exists when the
function returns.  A container comes into existence exactly when `docker
create` exits 0; `_cleanup_container` (docker rm -f) removes it.  The
`except` handlers at lines 300-321 and the early error returns at lines
220-225 and 255-260 all call `_cleanup_container`; the normal-exit return at
line 298 does not. -/
def run_code_body (env : RunnerEnv) (req : RunRequest) : RunOutcome × Bool :=
  match SANDBOX_CONFIG req.language with
  | none => (.http400 ("Unsupported language: " ++ req.language), false)
  | some _cfg =>
    -- write cfg.filename := req.code (any exception goes to the generic handlers)
    match env.codeWrite with
    | .error e => (.resp (excResponse e), false)   -- handler also ran _cleanup_container
    | .ok _ =>
    -- materialize files_b64; a decode/write failure returns early after _cleanup_container
    match env.decodeFail with
    | some (relName, msg) =>
      (.resp { returncode := 1, stdout := "",
               stderr := "Failed to decode or write input file " ++ relName ++ ": " ++ msg },
       false)
    | none =>
    -- (requirements.txt written via requirementsFileContent when applicable)
    -- 1) docker create
    match env.createRes with
    | .error e => (.resp (excResponse e), false)
    | .ok cr =>
    if cr.rc ≠ 0 then
      -- create failed: early return, no container was created, no cleanup call
      (.resp { returncode := cr.rc, stdout := cr.out, stderr := cr.err }, false)
    else
    -- container now exists
    -- 2) docker cp into the container
    match env.cpRes with
    | .error e => (.resp (excResponse e), false)   -- handler ran _cleanup_container
    | .ok cp =>
    if cp.rc ≠ 0 then
      -- line 255: _cleanup_container, then early return
      (.resp { returncode := cp.rc, stdout := cp.out,
               stderr := if cp.err = "" then "Failed to docker cp workspace" else cp.err },
       false)
    else
    -- 3) docker start -a with wall-clock limit req.timeout
    match env.startRes with
    | .error e => (.resp (excResponse e), false)   -- timeout / fnf / generic handlers clean up
    | .ok st =>
    -- 4) artifact collection, then the normal-exit return at line 298:
    --    NO _cleanup_container here — the container is left in existence.
    let af := artifactFields env (25 * 1024 * 1024)
    (.resp { returncode := st.rc, stdout := st.out, stderr := st.err,
             artifacts_zip_b64 := af.1, artifacts_note := af.2 },
     true)

/-- Embedding of `run_code` with its `finally` block (lines 322-327): the semaphore is
released and `shutil.rmtree(temp_dir, ignore_errors=True)` always deletes the
per-run temp directory, on every exit path. -/
def run_code (env : RunnerEnv) (req : RunRequest) : RunOutcome × RunnerWorld :=
  let r := run_code_body env req
  (r.1, { container := r.2, tempDir := false })

/-! ## Generic scanning helpers (left-to-right `re` semantics) -/

/-- Predicate `startsWithL l pat`: does `l` begin with `pat`? -/
def startsWithL : List Char → List Char → Bool
  | _, [] => true
  | [], _ :: _ => false
  | c :: cs, d :: ds => c = d && startsWithL cs ds

/-- Substring containment (Python `pat in s`). -/
def containsSub : List Char → List Char → Bool
  | [], pat => pat.isEmpty
  | c :: rest, pat => startsWithL (c :: rest) pat || containsSub rest pat

/-- Match a literal, returning the remaining input. -/
def matchLit : List Char → List Char → Option (List Char)
  | [], l => some l
  | _ :: _, [] => none
  | p :: ps, c :: cs => if c = p then matchLit ps cs else none

def lowerL (l : List Char) : List Char := l.map Char.toLower

/-- Case-insensitive literal match (`re.IGNORECASE`). -/
def matchLitCI : List Char → List Char → Option (List Char)
  | [], l => some l
  | _ :: _, [] => none
  | p :: ps, c :: cs => if c.toLower = p.toLower then matchLitCI ps cs else none

/-- Matcher for `\s+`: at least one whitespace character, maximal run. -/
def matchSpaces1 : List Char → Option (List Char)
  | c :: rest => if pyIsSpace c then some (rest.dropWhile pyIsSpace) else none
  | [] => none

def isQuoteCh (c : Char) : Bool := c = squote || c = dquote

/-- Generic `re.findall` driver: try the matcher at each position, on success continue
after the match (all matchers below consume at least one character). -/
def scanAllF (m : List Char → Option (String × List Char)) : Nat → List Char → List String
  | 0, _ => []
  | _ + 1, [] => []
  | fuel + 1, c :: rest =>
    match m (c :: rest) with
    | some (tok, after) => tok :: scanAllF m fuel after
    | none => scanAllF m fuel rest

/-- Predicate `endsWithL l pat`: does `l` end with `pat`? -/
def endsWithL (l pat : List Char) : Bool := startsWithL l.reverse pat.reverse

/-- Code-point lexicographic order on strings (Python `sorted`). -/
def lexLe : List Char → List Char → Bool
  | [], _ => true
  | _ :: _, [] => false
  | a :: as, b :: bs =>
    if a.toNat < b.toNat then true
    else if b.toNat < a.toNat then false
    else lexLe as bs

def insertSorted (x : String) : List String → List String
  | [] => [x]
  | y :: ys => if lexLe x.data y.data then x :: y :: ys else y :: insertSorted x ys

/-- Python `sorted` on a list of strings. -/
def sortStrs (l : List String) : List String := l.foldr insertSorted []

/-! ## `code_executor.py` helpers -/

/-- The `_PY_IMPORT_TO_PYPI` table (code_executor.py, lines 273-289). -/
def PY_IMPORT_TO_PYPI : String → Option String
  | "cv2" => some "opencv-python"
  | "PIL" => some "Pillow"
  | "sklearn" => some "scikit-learn"
  | "bs4" => some "beautifulsoup4"
  | "yaml" => some "PyYAML"
  | "Crypto" => some "pycryptodome"
  | "dateutil" => some "python-dateutil"
  | "pdf2image" => some "pdf2image"
  | "pdfplumber" => some "pdfplumber"
  | "PyPDF2" => some "PyPDF2"
  | "openpyxl" => some "openpyxl"
  | "reportlab" => some "reportlab"
  | "tabula" => some "tabula-py"
  | "pandas" => some "pandas"
  | "numpy" => some "numpy"
  | _ => none

/-- Embedding of `_map_import_to_pypi` (lines 292-295): first dotted segment, then table. -/
def map_import_to_pypi (moduleName : String) : String :=
  let top := String.mk (moduleName.data.takeWhile (· ≠ '.'))
  (PY_IMPORT_TO_PYPI top).getD top

/-- One attempted match of `No module named ['\"]([^'\"]+)['\"]`. -/
def matchModuleNameAt (l : List Char) : Option (String × List Char) := do
  let l ← matchLit ("No module named ".data) l
  match l with
  | q :: rest =>
    if isQuoteCh q then
      let tok := rest.takeWhile (fun c => !isQuoteCh c)
      match rest.dropWhile (fun c => !isQuoteCh c) with
      | q2 :: after =>
        if isQuoteCh q2 ∧ tok ≠ [] then some (String.mk tok, after) else none
      | [] => none
    else none
  | [] => none

/-- Embedding of `re.findall(r"No module named ['\"]([^'\"]+)['\"]", stderr)` (line 170). -/
def findMissingModules (stderr : String) : List String :=
  scanAllF matchModuleNameAt stderr.data.length stderr.data

/-- One attempted match of the `_extract_missing_module` pattern. -/
def matchMNFEAt (l : List Char) : Option (String × List Char) := do
  let l ← matchLit ("ModuleNotFoundError: ".data) l
  matchModuleNameAt l

/-- Embedding of `_extract_missing_module` (lines 245-249): first match of
`ModuleNotFoundError: No module named ['\"]([^'\"]+)['\"]`, if any. -/
def extract_missing_module (stderr : String) : Option String :=
  (scanAllF matchMNFEAt stderr.data.length stderr.data).head?

/-- Extension alternatives of `\.(?:pdf|csv|xlsx?|txt|json|xml|jpg|png)`. -/
def knownExts : List String := ["pdf", "csv", "xls", "xlsx", "txt", "json", "xml", "jpg", "png"]

/-- Does a quoted token match `[^'\"]+\.(?:pdf|...)` case-insensitively
(nonempty part before the final dot-extension)? -/
def quotedTokenValid (tok : List Char) : Bool :=
  knownExts.any (fun ext =>
    let suffix := '.' :: ext.data
    endsWithL (lowerL tok) suffix && suffix.length < tok.length)

/-- One attempted match of `['\"]([^'\"]+\.(?:pdf|...))['\"]` (line 258). -/
def matchQuotedFileAt (l : List Char) : Option (String × List Char) :=
  match l with
  | q :: rest =>
    if isQuoteCh q then
      let tok := rest.takeWhile (fun c => !isQuoteCh c)
      match rest.dropWhile (fun c => !isQuoteCh c) with
      | q2 :: after =>
        if isQuoteCh q2 ∧ quotedTokenValid tok then some (String.mk tok, after) else none
      | [] => none
    else none
  | [] => none

/-- One attempted match of `file\s+not\s+found:\s+([^\s]+)` (line 262). -/
def matchFileNotFoundAt (l : List Char) : Option (String × List Char) := do
  let l ← matchLitCI ("file".data) l
  let l ← matchSpaces1 l
  let l ← matchLitCI ("not".data) l
  let l ← matchSpaces1 l
  let l ← matchLitCI ("found:".data) l
  let l ← matchSpaces1 l
  let tok := l.takeWhile (fun c => !pyIsSpace c)
  if tok ≠ [] then some (String.mk tok, l.dropWhile (fun c => !pyIsSpace c)) else none

/-- One attempted match of
`no such file or directory:\s+['\"]?([^\s'\"\\]+)` (line 263). -/
def matchNoSuchFileAt (l : List Char) : Option (String × List Char) := do
  let l ← matchLitCI ("no such file or directory:".data) l
  let l ← matchSpaces1 l
  let l := match l with
    | c :: rest => if isQuoteCh c then rest else c :: rest
    | [] => []
  let bad := fun c => pyIsSpace c || isQuoteCh c || c = bslash
  let tok := l.takeWhile (fun c => !bad c)
  if tok ≠ [] then some (String.mk tok, l.dropWhile (fun c => !bad c)) else none

/-- Tail of the `Input .* file ['\"]([^'\"]+)['\"] not found` pattern (line 264),
starting at the ` file ` literal. -/
def matchInputTailAt (l : List Char) : Option (String × List Char) := do
  let l ← matchLitCI (" file ".data) l
  match l with
  | q :: rest =>
    if isQuoteCh q then
      let tok := rest.takeWhile (fun c => !isQuoteCh c)
      match rest.dropWhile (fun c => !isQuoteCh c) with
      | q2 :: after =>
        if isQuoteCh q2 ∧ tok ≠ [] then do
          let after2 ← matchLitCI (" not found".data) after
          some (String.mk tok, after2)
        else none
      | [] => none
    else none
  | [] => none

/-- Greedy `.*`: try consuming `k` characters first, then backtrack. -/
def matchInputGreedy : Nat → List Char → Option (String × List Char)
  | 0, after => matchInputTailAt after
  | k + 1, after =>
    match matchInputTailAt (after.drop (k + 1)) with
    | some r => some r
    | none => matchInputGreedy k after

/-- One attempted match of `Input .* file ['\"]([^'\"]+)['\"] not found`:
`.*` does not cross a newline and is greedy. -/
def matchInputAt (l : List Char) : Option (String × List Char) := do
  let after ← matchLitCI ("input ".data) l
  matchInputGreedy (after.takeWhile (· ≠ '\n')).length after

/-- The dotted-extension tuple of line 268, used as `ext in m.lower()`
(substring containment, not suffix). -/
def hasKnownExtSub (m : String) : Bool :=
  [".pdf", ".csv", ".xls", ".xlsx", ".txt", ".json", ".xml", ".jpg", ".png"].any
    (fun e => containsSub (lowerL m.data) e.data)

/-- Embedding of `_extract_missing_filenames` (code_executor.py, lines 252-270): quoted
filenames with known extensions, plus the three phrase patterns filtered by
extension substring; returned as `sorted(set(...))`. -/
def extract_missing_filenames (stderr : String) : List String :=
  let l := stderr.data
  let n := l.length
  let quoted := scanAllF matchQuotedFileAt n l
  let phrases := scanAllF matchFileNotFoundAt n l
    ++ scanAllF matchNoSuchFileAt n l
    ++ scanAllF matchInputAt n l
  sortStrs (dedupFirstAux [] (quoted ++ phrases.filter hasKnownExtSub))

/-! ## Python base64 and code sanitization -/

def b64Char (n : Nat) : Char :=
  if n < 26 then Char.ofNat (65 + n)
  else if n < 52 then Char.ofNat (97 + (n - 26))
  else if n < 62 then Char.ofNat (48 + (n - 52))
  else if n = 62 then '+' else '/'

def base64Chunks : List Nat → List Char
  | b0 :: b1 :: b2 :: rest =>
    b64Char (b0 / 4) :: b64Char (b0 % 4 * 16 + b1 / 16)
      :: b64Char (b1 % 16 * 4 + b2 / 64) :: b64Char (b2 % 64) :: base64Chunks rest
  | [b0, b1] => [b64Char (b0 / 4), b64Char (b0 % 4 * 16 + b1 / 16), b64Char (b1 % 16 * 4), '=']
  | [b0] => [b64Char (b0 / 4), b64Char (b0 % 4 * 16), '=', '=']
  | [] => []

/-- Embedding of `base64.b64encode(data).decode("ascii")` (never fails on byte input, so the
`try/continue` around it at lines 118-121 never skips a file). -/
def base64Encode (bs : List Nat) : String := String.mk (base64Chunks bs)

/-- Python `str.strip()` restricted to ASCII whitespace. -/
def pyStrip (l : List Char) : List Char :=
  ((l.dropWhile pyIsSpace).reverse.dropWhile pyIsSpace).reverse

/-- Python `str.splitlines()` for `\n`, `\r\n` and `\r` terminators. -/
def splitLinesPyF : Nat → List Char → List (List Char)
  | 0, _ => []
  | _ + 1, [] => []
  | fuel + 1, l =>
    let isNl := fun c => c = '\n' || c = '\r'
    let line := l.takeWhile (fun c => !isNl c)
    match l.dropWhile (fun c => !isNl c) with
    | '\r' :: '\n' :: tl => line :: splitLinesPyF fuel tl
    | _ :: tl => line :: splitLinesPyF fuel tl
    | [] => [line]

def splitLinesPy (l : List Char) : List (List Char) := splitLinesPyF l.length l

/-- The language tokens of line 90. -/
def langTokens : List String := ["python", "c", "cpp", "c++", "javascript", "java"]

/-- The pre-sanitization of `execute` (code_executor.py, lines 86-92): strip a
UTF-8 BOM and outer whitespace, drop leading lines that are a bare language
token or start a markdown fence, re-join and strip. -/
def sanitizeCode (code : String) : String :=
  let stripped := pyStrip (code.data.dropWhile (· = Char.ofNat 65279))
  let lines := splitLinesPy stripped
  let lines := lines.dropWhile (fun l =>
    (langTokens.any (fun t => lowerL (pyStrip l) = t.data))
      || startsWithL (pyStrip l) ("```".data))
  String.mk (pyStrip (List.intercalate ['\n'] lines))

/-! ## JSON values and the orchestrator-side `execute` -/

/-- JSON values as decoded by `resp.json()`. -/
inductive JVal where
  | jnull
  | jbool (b : Bool)
  | jint (n : Int)
  | jstr (s : String)
  | jarr (elems : List JVal)
  | jobj (fields : List (String × JVal))

/-- First-binding lookup in a JSON object (Python dicts have unique keys). -/
def jLookup (fields : List (String × JVal)) (k : String) : Option JVal :=
  match fields with
  | [] => none
  | f :: fs => if f.1 = k then some f.2 else jLookup fs k

mutual

/-- Python `str(...)` of a decoded JSON value (used only in the fallback
`{"returncode": 1, "stdout": "", "stderr": str(raw)}`; no theorem depends on
the exact rendering). -/
def reprJVal : JVal → String
  | .jnull => "None"
  | .jbool b => if b then "True" else "False"
  | .jint n => toString n
  | .jstr s => "\x27" ++ s ++ "\x27"
  | .jarr es => "[" ++ reprJList es ++ "]"
  | .jobj fs => "\x7b" ++ reprJFields fs ++ "\x7d"

def reprJList : List JVal → String
  | [] => ""
  | [x] => reprJVal x
  | x :: y :: xs => reprJVal x ++ ", " ++ reprJList (y :: xs)

def reprJFields : List (String × JVal) → String
  | [] => ""
  | [f] => "\x27" ++ f.1 ++ "\x27: " ++ reprJVal f.2
  | f :: g :: fs => "\x27" ++ f.1 ++ "\x27: " ++ reprJVal f.2 ++ ", " ++ reprJFields (g :: fs)

end

/-- Python `key in raw` on a decoded JSON value: key membership for dicts,
element equality for lists, substring test for strings, `TypeError` otherwise. -/
def pyIn (k : String) : JVal → Except String Bool
  | .jobj fs => .ok ((jLookup fs k).isSome)
  | .jarr es => .ok (es.any (fun e => match e with | .jstr s => s == k | _ => false))
  | .jstr s => .ok (containsSub s.data k.data)
  | _ => .error "TypeError: argument is not iterable"

/-- Python `raw.get(k)`: `AttributeError` on non-dicts. -/
def pyGet (v : JVal) (k : String) : Except String (Option JVal) :=
  match v with
  | .jobj fs => .ok (jLookup fs k)
  | _ => .error "AttributeError: object has no attribute get"

/-- The fallback object of line 145: `{"returncode": 1, "stdout": "", "stderr": str(raw)}`. -/
def fallbackObj (raw : JVal) : JVal :=
  .jobj [("returncode", .jint 1), ("stdout", .jstr ""), ("stderr", .jstr (reprJVal raw))]

/-- Response normalization (code_executor.py, lines 139-145):
keep `raw` if it has all of `returncode`/`stdout`/`stderr`; else unwrap a
dict-valued `result` key; else build the fallback object. -/
def normalizeResp (raw : JVal) : Except String JVal := do
  let a ← pyIn "returncode" raw
  let b ← pyIn "stdout" raw
  let c ← pyIn "stderr" raw
  if a && b && c then pure raw
  else
    match raw with
    | .jobj fs =>
      match jLookup fs "result" with
      | some (.jobj m) => pure (.jobj m)
      | _ => pure (fallbackObj raw)
    | _ => pure (fallbackObj raw)

/-- Python `X != 0` on a decoded JSON value (`result.get("returncode", 0) != 0`
with default 0 for a missing key; note `True == 1` and `False == 0`). -/
def jNeZero : Option JVal → Bool
  | none => false
  | some (.jint n) => n ≠ 0
  | some (.jbool b) => b
  | some .jnull => true
  | some (.jstr _) => true
  | some (.jarr _) => true
  | some (.jobj _) => true

/-- Python `[...] | {...}` (line 179):
`retry_payload.get("requirements", [])` is always a Python *list* here (it is
either absent — default `[]` — or was stored as a list at line 108 or line
130), and `missing_pkgs` is a *set*; the `|` operator between a list and a set
raises `TypeError`, unconditionally. -/
def pyListOrSet (_l : List String) (_s : List String) : Except String (List String) :=
  .error "unsupported operand type(s) for |: \x27list\x27 and \x27set\x27"

/-- Embedding of `list(set(existing).union(inferred))` (lines 127-128).  Python set order is
unspecified; first-occurrence order is one admissible enumeration, and all
theorems about requirements compare them as finite sets. -/
def pyListSetUnion (l m : List String) : List String := dedupFirstAux [] (l ++ m)

/-- One HTTP request issued to the Runner: the JSON payload fields plus the
host-side `requests.post(..., timeout=...)` wall-clock tolerance. -/
structure SentReq where
  language : String
  code : String
  timeout : Int
  requirements : List String
  network : String
  files_b64 : List (String × String)
  httpTolerance : Int
deriving DecidableEq

/-- What `execute` returns: the dict `{"result": ..., "inputs_required": ...}`
(the `inputs_required` key present iff the list is nonempty). -/
structure FinalRet where
  result : JVal
  inputs_required : List String := []

/-- Record of `execute`'s observable behaviour: its return value and the requests sent. -/
structure ExecTrace where
  ret : FinalRet
  calls : List SentReq

/-- Oracles for one `execute` call.  `inferred` abstracts
`_infer_python_requirements_from_code(code)` (AST import analysis mapped
through `PY_IMPORT_TO_PYPI`, already a set — no duplicates assumed);
`similarErrs` abstracts whether `rag_manager.retrieve_similar_errors` returns
a nonempty list (`.error` = it raised); `send k` is the outcome of the k-th
`requests.post` (`.error` = transport exception / `raise_for_status` /
JSON-decode failure, carrying `str(e)`). -/
structure ExecEnv where
  inferred : List String
  similarErrs : Except Unit Bool
  send : Nat → Except String JVal

/-- The heavy-library set of line 100. -/
def heavyLibs : List String :=
  ["pandas", "numpy", "torch", "opencv-python", "pdfplumber", "tabula-py", "openpyxl"]

/-- The `try:` body of `execute` (lines 132-199).  Returns the final value and
the list of *additional* requests (the retry, when one is posted); an
`.error` is an exception escaping to the outer handler at line 201. -/
def executeTryBody (env : ExecEnv) (payload : SentReq) (timeoutFinal : Int)
    (language : String) : Except String (FinalRet × List SentReq) := do
  let raw ← env.send 0
  let result ← normalizeResp raw
  -- line 148: surface required input files from a string stderr
  let stderrV ← pyGet result "stderr"
  let inputsReq := match stderrV with
    | some (.jstr s) => extract_missing_filenames s
    | _ => []
  if inputsReq ≠ [] then
    pure ({ result := result, inputs_required := inputsReq }, [])
  else
  -- lines 153-158: missing-module auto-install retry, python only
  let rcV ← pyGet result "returncode"
  let isStderrStr := match stderrV with | some (.jstr _) => true | _ => false
  let stderrS := match stderrV with | some (.jstr s) => s | _ => ""
  if language == "python" && jNeZero rcV && isStderrStr
      && (containsSub stderrS.data ("ModuleNotFoundError: No module named".data)
          || containsSub stderrS.data ("No module named".data)) then
    -- lines 160-166: skip the retry if a similar error is already in memory
    -- (the inner `try/except: pass` swallows a raising retrieval)
    let skip := match env.similarErrs with | .ok b => b | .error _ => false
    if skip then
      pure ({ result := result }, [])
    else
      -- lines 168-174: collect all missing modules, mapped to PyPI names (a set)
      let missingPkgs := dedupFirstAux []
        ((findMissingModules stderrS).map map_import_to_pypi
          ++ (match extract_missing_module stderrS with
              | some m => [map_import_to_pypi m]
              | none => []))
      if missingPkgs ≠ [] then do
        -- line 179 raises TypeError (`list | set`); nothing below it can run
        let merged ← pyListOrSet payload.requirements missingPkgs
        -- lines 180-197, embedded for fidelity although unreachable:
        let retryTimeout := max timeoutFinal 60 + 60
        let retryPayload :=
          { payload with
            requirements := merged
            timeout := retryTimeout
            httpTolerance := retryTimeout + 60 }
        match env.send 1 with
        | .error _ => pure ({ result := result }, [retryPayload])  -- inner except: fall through
        | .ok raw2 =>
          match normalizeResp raw2 with
          | .error _ => pure ({ result := result }, [retryPayload])  -- inner except
          | .ok retryResult => pure ({ result := retryResult }, [retryPayload])
      else
        pure ({ result := result }, [])
  else
    pure ({ result := result }, [])

/-- The inferred-requirements set actually used: lines 95-97 run the AST
inference only for python with `auto_requirements` on. -/
def usedInferred (env : ExecEnv) (language : String) (autoRequirements : Bool) :
    List String :=
  if language = "python" ∧ autoRequirements then env.inferred else []

/-- The adaptive timeout of lines 99-104:
`max(timeout or 60, 30 + install_penalty + heavy_bonus)`. -/
def timeoutFinalOf (env : ExecEnv) (language : String) (timeout : Int)
    (autoRequirements : Bool) : Int :=
  let inferred := usedInferred env language autoRequirements
  max (if timeout = 0 then 60 else timeout)
    (30 + (if inferred ≠ [] then (20 : Int) else 0)
      + (if inferred.any (· ∈ heavyLibs) then (20 : Int) else 0))

/-- The JSON payload of lines 106-130 together with the host-side tolerance
`timeout_final + 60` handed to `requests.post` at line 133. -/
def buildPayload (env : ExecEnv) (code0 : String) (language : String) (timeout : Int)
    (requirements : List String) (allowNetwork autoRequirements : Bool)
    (inputFiles : List (String × List Nat)) (sandboxNetwork : String) : SentReq :=
  let inferred := usedInferred env language autoRequirements
  { language := language
    code := sanitizeCode code0
    timeout := timeoutFinalOf env language timeout autoRequirements
    requirements :=
      if language = "python" ∧ autoRequirements ∧ inferred ≠ [] then
        pyListSetUnion requirements inferred
      else requirements
    network := if allowNetwork then sandboxNetwork else "none"
    files_b64 := inputFiles.map (fun p => (p.1, base64Encode p.2))
    httpTolerance := timeoutFinalOf env language timeout autoRequirements + 60 }

/-- Embedding of `execute` (code_executor.py, lines 65-209).  Total at its interface: the
outer `except Exception` at line 201 converts every escaping exception into
`{"result": {"returncode": 1, "stdout": "", "stderr": f"Runner error: {e}"}}`.
Parameters mirror the Python signature; `sandboxNetwork` is
`os.getenv("SANDBOX_DEFAULT_NETWORK", "bridge")`. -/
def execute (env : ExecEnv) (code0 : String) (language : String) (timeout : Int)
    (requirements : List String) (allowNetwork autoRequirements : Bool)
    (inputFiles : List (String × List Nat)) (sandboxNetwork : String) : ExecTrace :=
  match executeTryBody env
      (buildPayload env code0 language timeout requirements
        allowNetwork autoRequirements inputFiles sandboxNetwork)
      (timeoutFinalOf env language timeout autoRequirements) language with
  | .ok pr =>
    { ret := pr.1
      calls := buildPayload env code0 language timeout requirements
        allowNetwork autoRequirements inputFiles sandboxNetwork :: pr.2 }
  | .error e =>
    { ret := { result := .jobj [("returncode", .jint 1), ("stdout", .jstr ""),
                                ("stderr", .jstr ("Runner error: " ++ e))] },
      calls := [buildPayload env code0 language timeout requirements
        allowNetwork autoRequirements inputFiles sandboxNetwork] }

/-! ## Orchestration state machine (api/graph_core.py)

The LangGraph state (`NFState`) is a mutable dict; here it is a value carried
through the node functions.  Dict keys that can be absent are modelled by
their `state.get(...)` defaults: `error_signature` absent ≡ `None` (`Option`),
`inputs_required` absent ≡ untruthy (`[]`).  The external collaborators are
oracles:
  * the generator call of `node_writer` (including its memory retrievals,
    none of which are exception-guarded there) — one `Except` value;
  * `code_executor.execute` — per-call `ExecOutcome`, the fields `node_executor`
    reads out of the returned dict with their defaults
    (`result["result"].get("returncode", 1)`, `.get("stderr", "")`,
    `.get("stdout", "")`, `result.get("inputs_required")`);
  * the memory retrievals and the repairer call of `node_fixer` — `Except`
    values (`.error` = the call raised).
`add_tool` / `add_error` / `add_fix` are wrapped in `try/except` in the source
and do not affect the state, so they have no oracle. -/

/-- What `node_executor` extracts from `code_executor.execute`'s return value. -/
structure ExecOutcome where
  returncode : Int
  stdout : String
  stderr : String
  inputsRequired : List String := []
deriving DecidableEq

/-- The orchestration state `NFState` (graph_core.py, lines 12-22). -/
structure GState where
  task : String
  language : Option String := none
  code : Option String := none
  result : Option ExecOutcome := none
  error : Option String := none
  errorSignature : Option String := none
  attempts : Nat := 0
  inputFiles : List (String × List Nat) := []
  inputsRequired : List String := []
  timeout : Int := 60
deriving DecidableEq

/-- Python truthiness of `state.get("error")`: set and nonempty. -/
def errTruthy : Option String → Bool
  | none => false
  | some s => s ≠ ""

/-- Embedding of `initial_state(task, input_files, timeout)` (lines 45-56); `timeout or 60`
maps `None` and `0` to `60`. -/
def initial_state (task : String) (inputFiles : List (String × List Nat))
    (timeout : Option Int) : GState :=
  { task := task
    inputFiles := inputFiles
    timeout := match timeout with
      | none => 60
      | some t => if t = 0 then 60 else t }

/-- Embedding of `node_writer` (lines 60-82) given the generator outcome `(code, language)`.
The memory retrievals and `generate_code` are not exception-guarded there; a
raising call aborts the whole run, which `runGraph` models at its top level. -/
def node_writer (gen : String × String) (s : GState) : GState :=
  { s with
    code := some gen.1
    language := some gen.2
    attempts := s.attempts + 1 }

/-- Embedding of `node_executor` (lines 86-134) given the outcome `out` extracted from
`code_executor.execute`.  On exit 0 the error fields are cleared (`add_tool` is
try-wrapped, no state effect); otherwise `error := stderr`,
`error_signature := _error_signature(stderr) if stderr else None`
(`add_error` is try-wrapped), and a truthy `inputs_required` from the result is
recorded in the state. -/
def node_executor (out : ExecOutcome) (s : GState) : GState :=
  let s := { s with result := some out }
  if out.returncode = 0 then
    { s with error := none, errorSignature := none }
  else
    let s := { s with
      error := some out.stderr
      errorSignature := if out.stderr ≠ "" then some (error_signature out.stderr) else none }
    if out.inputsRequired ≠ [] then { s with inputsRequired := out.inputsRequired } else s

/-- Oracles consumed by one `node_fixer` invocation: the two
`retrieve_fixes` queries (their `or []` already applied — only emptiness
matters) and `code_fixer.fix_code`; `.error` means the call raised. -/
structure FixStep where
  fixesBySig : Except Unit (List Unit)
  fixesByText : Except Unit (List Unit)
  fixCode : Except Unit String

/-- The state update the repair success path applies (lines 172-189):
store the repaired source, increment `attempts`, and set
`timeout := min(300, max(60, current + 30))` where `current` is
`int(state.get("timeout", 60) or 60)`. -/
def repairUpdate (s : GState) (c : String) : GState :=
  { s with
    code := some c
    attempts := s.attempts + 1
    timeout := min 300 (max 60 ((if s.timeout = 0 then 60 else s.timeout) + 30)) }

/-- The body of `node_fixer`'s outer `try:` (lines 143-190).  Every state
mutation of the source (`state["code"]`, `state["attempts"]`,
`state["timeout"]`) happens after the last raise point inside the `try`, so an
`.error` outcome leaves the state exactly as it was (the earlier steps bind
locals only).  The `attempts`/`timeout` updates sit in their own `try/except`
blocks whose bodies cannot raise on well-typed state, so the success path
always applies them. -/
def fixerBody (fx : FixStep) (s : GState) : Except Unit GState := do
  -- sig := state.get("error_signature") or _error_signature(state.get("error") or "")
  let _sig := match s.errorSignature with
    | some t => if t ≠ "" then t else error_signature ((s.error).getD "")
    | none => error_signature ((s.error).getD "")
  let candidates ← fx.fixesBySig
  let _candidates ← if candidates.isEmpty then fx.fixesByText else pure candidates
  -- retrieve_tools / retrieve_docs are individually try-wrapped (lines 154-161):
  -- a raising retrieval degrades the context but cannot escape.
  let fixed ← fx.fixCode
  -- add_fix is try-wrapped (lines 175-179): no state effect.
  pure (repairUpdate s fixed)

/-- Embedding of `node_fixer` (lines 138-193): no-op when `error` is untruthy; otherwise run
the body, and on any escaping exception return the state unchanged (line 191). -/
def node_fixer (fx : FixStep) (s : GState) : GState :=
  if errTruthy s.error then
    match fixerBody fx s with
    | .ok s2 => s2
    | .error _ => s
  else s

/-- Routing result of `decide_next`. -/
inductive Route where
  | executor
  | done
deriving DecidableEq

/-- Embedding of `decide_next` (lines 197-203): back to the executor iff `error` is truthy
and `attempts < 3`. -/
def decide_next (s : GState) : Route :=
  if errTruthy s.error ∧ s.attempts < 3 then .executor else .done

/-- Environment of a whole run: the writer outcome and per-iteration executor
and fixer oracles (iteration `k` = the k-th executor/fixer pair). -/
structure GEnv where
  gen : Except Unit (String × String)
  execOut : Nat → ExecOutcome
  fix : Nat → FixStep

/-- The compiled graph's cycle (build_graph, lines 207-219): after `writer`,
repeat `executor` then `fixer`, then route via `decide_next`; `none` = the
fuel ran out with the loop still running. -/
def graphLoop (env : GEnv) : Nat → Nat → GState → Option GState
  | 0, _, _ => none
  | fuel + 1, k, s =>
    let s1 := node_executor (env.execOut k) s
    let s2 := node_fixer (env.fix k) s1
    match decide_next s2 with
    | .executor => graphLoop env fuel (k + 1) s2
    | .done => some s2

/-- A full `run_task` graph invocation (lines 223-226): `.error` = the writer
phase raised (generator or its unguarded retrievals), `.ok none` = fuel
exhausted, `.ok (some s)` = the machine reached END with state `s`. -/
def runGraph (env : GEnv) (task : String) (inputFiles : List (String × List Nat))
    (timeout : Option Int) (fuel : Nat) : Except Unit (Option GState) := do
  let gen ← env.gen
  pure (graphLoop env fuel 0 (node_writer gen (initial_state task inputFiles timeout)))

/-- The final payload assembled by `run_task` (lines 231-242); the
`inputs_required` key is added iff the state's value is truthy, which the
`[]`-encoding already expresses. -/
structure TaskResult where
  language : Option String
  attempts : Nat
  stdout : String
  stderr : String
  returncode : Option Int
  inputsRequired : List String
deriving DecidableEq

def finalAnswer (s : GState) : TaskResult :=
  { language := s.language
    attempts := s.attempts
    stdout := (s.result.map (·.stdout)).getD ""
    stderr := (s.result.map (·.stderr)).getD ""
    returncode := s.result.map (·.returncode)
    inputsRequired := s.inputsRequired }

/-- States the graph can pass through between node invocations, starting from
any writer outcome on any initial state and closing under executor and fixer
steps with arbitrary oracle outcomes.  This over-approximates the states
reachable in any run. -/
inductive Reach : GState → Prop
  | start (gen : String × String) (task : String)
      (inputFiles : List (String × List Nat)) (timeout : Option Int) :
      Reach (node_writer gen (initial_state task inputFiles timeout))
  | exec (out : ExecOutcome) {s : GState} : Reach s → Reach (node_executor out s)
  | fix (fx : FixStep) {s : GState} : Reach s → Reach (node_fixer fx s)

/-! ## Concrete scenarios used by the evaluation theorems -/

/-- A `/run` where every Docker step succeeds and the program exits 0. -/
def happyEnv : RunnerEnv :=
  { codeWrite := .ok ()
    decodeFail := none
    createRes := .ok ⟨0, "", ""⟩
    cpRes := .ok ⟨0, "", ""⟩
    startRes := .ok ⟨0, "hello world\n", ""⟩
    cpBackRes := .ok ⟨0, "", ""⟩
    workspaceCopied := true
    zipSize := 512
    zipB64 := "UEsFBgAAAAAAAAAAAAAAAAAAAAAAAA==" }

/-- Same run but the wall-clock limit expires during `docker start -a`. -/
def timeoutEnv : RunnerEnv := { happyEnv with startRes := .error .timedOut }

/-- Same run but the Docker CLI is missing (`FileNotFoundError` at create). -/
def dockerMissingEnv : RunnerEnv :=
  { happyEnv with createRes := .error (.fnf "[Errno 2] No such file or directory") }

/-- Same run but an unknown exception escapes during start. -/
def crashEnv : RunnerEnv := { happyEnv with startRes := .error (.oth "boom") }

def helloReq : RunRequest := { language := "python", code := "print(\x22hello world\x22)" }

/-- Every repair step completes: both `retrieve_fixes` queries return and the
repairer returns a fixed source. -/
def FixerTotal (env : GEnv) : Prop :=
  ∀ k, (∃ l, (env.fix k).fixesBySig = .ok l) ∧ (∃ l, (env.fix k).fixesByText = .ok l)
    ∧ (∃ c, (env.fix k).fixCode = .ok c)

/-- A run in which generation succeeds, execution exits 0 and the repairer is
never needed. -/
def demoEnv : GEnv :=
  { gen := .ok ("print(\x22hello world\x22)", "python")
    execOut := fun _ => { returncode := 0, stdout := "hello world\n", stderr := "" }
    fix := fun _ => { fixesBySig := .ok [], fixesByText := .ok [], fixCode := .ok "print(1)" } }

/-- The state `demoEnv`'s run finishes in (one executor pass, fixer no-op). -/
def demoFinal : GState :=
  node_fixer (demoEnv.fix 0)
    (node_executor (demoEnv.execOut 0)
      (node_writer ("print(\x22hello world\x22)", "python")
        (initial_state "print hello world in python" [] none)))

/-- Execution always fails, and the repair pipeline raises every time
(`code_fixer.fix_code` exhausts its retries and raises `RuntimeError`): the
`except` at graph_core.py line 191 swallows it and returns the state
unchanged, so `attempts` never moves past 1. -/
def stuckEnv : GEnv :=
  { gen := .ok ("while True: pass", "python")
    execOut := fun _ => { returncode := 1, stdout := "", stderr := "boom" }
    fix := fun _ => { fixesBySig := .ok [], fixesByText := .ok [], fixCode := .error () } }

/-- The graph run finishes for *some* amount of fuel. -/
def GraphTerminates (env : GEnv) (task : String) (files : List (String × List Nat))
    (t0 : Option Int) : Prop :=
  ∃ fuel, runGraph env task files t0 fuel ≠ .ok none

/-- A failing execution outcome used to drive a REPAIR transition. -/
def failOut : ExecOutcome :=
  { returncode := 1, stdout := "", stderr := "NameError: name x is not defined" }

/-- A fixer step whose oracles all succeed. -/
def okFix : FixStep :=
  { fixesBySig := .ok [], fixesByText := .ok [], fixCode := .ok "fixed source" }

/-- State just before REPAIR in a run started with timeout hint 400 (neither
the transport `TaskRequest` nor `initial_state` validates the hint). -/
def c5PreRepair : GState :=
  node_executor failOut
    (node_writer ("slow()", "python") (initial_state "slow task" [] (some 400)))

/-- A reachable state with a truthy error and an in-range timeout. -/
def c5WitState : GState := { task := "t", error := some "x", timeout := 60 }

/-- The claim's invariant: `error` is set exactly when the last run result has
a nonzero exit code, and then it equals that run's stderr; with no run result
yet, no error is set. -/
def ErrInvariant (s : GState) : Prop :=
  (∀ out, s.result = some out →
    (out.returncode = 0 → s.error = none) ∧
    (out.returncode ≠ 0 → s.error = some out.stderr))
  ∧ (s.result = none → s.error = none)

/-- A failing execution whose result carries `inputs_required`. -/
def inputsOut : ExecOutcome :=
  { returncode := 1
    stdout := ""
    stderr := "FileNotFoundError: No such file or directory: \x27report.pdf\x27"
    inputsRequired := ["report.pdf"] }

/-- State after the executor node processed that result. -/
def c2PostExec : GState :=
  node_executor inputsOut
    (node_writer ("print(open(\x27report.pdf\x27).read())", "python")
      (initial_state "summarize report.pdf" [] none))

/-- Scenario of spec §8 example 3: a python run fails with
`ModuleNotFoundError: No module named 'pandas'`, nothing similar is in memory,
and a second Runner call — had one been made — would have succeeded. -/
def c6Env : ExecEnv :=
  { inferred := ["pandas"]
    similarErrs := .ok false
    send := fun k =>
      if k = 0 then
        .ok (.jobj [("returncode", .jint 1), ("stdout", .jstr ""),
          ("stderr", .jstr "ModuleNotFoundError: No module named \x27pandas\x27")])
      else
        .ok (.jobj [("returncode", .jint 0), ("stdout", .jstr "2.1.0\n"),
          ("stderr", .jstr "")]) }

def c6Code : String := "import pandas as pd\nprint(pd.__version__)"

/-- A concrete python execution inferring a heavy package. -/
def c7Env : ExecEnv :=
  { inferred := ["pandas"]
    similarErrs := .ok false
    send := fun _ => .ok (.jobj [("returncode", .jint 0), ("stdout", .jstr ""),
      ("stderr", .jstr "")]) }

/-- A response object carries an integer `returncode` and string
`stdout`/`stderr` at its top level. -/
def TypedTriple (fs : List (String × JVal)) : Prop :=
  (∃ n, jLookup fs "returncode" = some (.jint n)) ∧
  (∃ s1, jLookup fs "stdout" = some (.jstr s1)) ∧
  (∃ s2, jLookup fs "stderr" = some (.jstr s2))

/-- Key-presence test the normalization branches on. -/
def hasTriple (fs : List (String × JVal)) : Bool :=
  (jLookup fs "returncode").isSome && (jLookup fs "stdout").isSome
    && (jLookup fs "stderr").isSome

/-- How a Runner JSON response must look for the pass-through branches to
produce a well-typed result: a JSON object that, when it carries all three
top-level keys, carries them well-typed, and when it instead carries an
object-valued `result` key, that object has the typed triple.  Every response
of the runner modelled by `run_code` satisfies this, as does any object with
neither a complete triple nor an object `result` (those fall through to the
constructed fallback). -/
def WellShaped (raw : JVal) : Prop :=
  ∃ fs, raw = .jobj fs
    ∧ (hasTriple fs = true → TypedTriple fs)
    ∧ (hasTriple fs = false →
        ∀ gs, jLookup fs "result" = some (.jobj gs) → TypedTriple gs)

/-- The claim's interface shape: the `result` value is a JSON object with an
integer `returncode` and string `stdout`/`stderr`. -/
def GoodResult (v : JVal) : Prop := ∃ fs, v = .jobj fs ∧ TypedTriple fs

/-- A well-shaped successful Runner response. -/
def c9Env : ExecEnv :=
  { inferred := []
    similarErrs := .ok false
    send := fun _ => .ok (.jobj [("returncode", .jint 0),
      ("stdout", .jstr "hello world\n"), ("stderr", .jstr "")]) }


/-! ## Theorems -/

/-- C4 (code bug, evaluation at the failing input).  The spec claims
`signature` is invariant under replacing file paths.  The failing input is the
pair of stderr texts `"open /data/a.txt failed"` and
`"open /stuff/b.txt failed"` — the same message up to the path.  Because the
doubly-escaped raw-string patterns make `[^\\s]` mean "neither backslash nor
the letter s", the first path is stripped but `/stuff` survives, the
normalized texts differ, and the SHA-1 signatures differ — contradicting both
the claim and the function's own docstring ("strip file paths, numbers"). -/
theorem error_signature_differs_on_path_variants :
    normalize_error "open /data/a.txt failed" = "open" ∧
    normalize_error "open /stuff/b.txt failed" = "open /stuff" ∧
    error_signature "open /data/a.txt failed"
      = "5fc7e38bffe00ca46add89145464a2eaf759d5c2" ∧
    error_signature "open /stuff/b.txt failed"
      = "7114f9801e4fc8c26cb45920c7d76f0dab8ed8d1" ∧
    error_signature "open /data/a.txt failed"
      ≠ error_signature "open /stuff/b.txt failed" := by
  have h1 : error_signature "open /data/a.txt failed"
      = "5fc7e38bffe00ca46add89145464a2eaf759d5c2" := by decide
  have h2 : error_signature "open /stuff/b.txt failed"
      = "7114f9801e4fc8c26cb45920c7d76f0dab8ed8d1" := by decide
  refine ⟨by decide, by decide, h1, h2, ?_⟩
  rw [h1, h2]
  decide

/-- C1 (code bug, evaluation at the failing input).  The spec claims that
after every `/run` no container with the generated name exists and the temp
dir is deleted, on every exit path.  The temp dir part holds (the `finally`
always removes it), and the timeout / runtime-missing / unknown-exception
paths do force-remove the container — but the *normal* exit path returns at
line 298 without any `_cleanup_container`, so after a successful run the
container still exists. -/
theorem run_code_cleanup_paths :
    (run_code happyEnv helloReq).1
      = .resp { returncode := 0, stdout := "hello world\n", stderr := "",
                artifacts_zip_b64 := some "UEsFBgAAAAAAAAAAAAAAAAAAAAAAAA==",
                artifacts_note := none } ∧
    (run_code happyEnv helloReq).2 = { container := true, tempDir := false } ∧
    (run_code timeoutEnv helloReq).1
      = .resp { returncode := 124, stdout := "", stderr := "Execution timed out." } ∧
    (run_code timeoutEnv helloReq).2 = { container := false, tempDir := false } ∧
    (run_code dockerMissingEnv helloReq).1
      = .resp { returncode := 1, stdout := "",
                stderr := "Docker unavailable: [Errno 2] No such file or directory" } ∧
    (run_code dockerMissingEnv helloReq).2 = { container := false, tempDir := false } ∧
    (run_code crashEnv helloReq).1
      = .resp { returncode := 1, stdout := "", stderr := "Runner error: boom" } ∧
    (run_code crashEnv helloReq).2 = { container := false, tempDir := false } := by
  exact ⟨rfl, rfl, rfl, rfl, rfl, rfl, rfl, rfl⟩

/-! ### Structural lemmas about the graph nodes -/

@[simp] lemma except_bind_ok {ε α β : Type} (a : α) (f : α → Except ε β) :
    (do let x ← Except.ok a; f x : Except ε β) = f a := rfl

@[simp] lemma except_bind_error {ε α β : Type} (e : ε) (f : α → Except ε β) :
    (do let x ← (Except.error e : Except ε α); f x : Except ε β) = Except.error e := rfl

lemma fixerBody_ok_shape (fx : FixStep) (s : GState) (r : GState)
    (h : fixerBody fx s = .ok r) :
    ∃ c, fx.fixCode = .ok c ∧ r = repairUpdate s c := by
  unfold fixerBody at h
  cases hsig : fx.fixesBySig with
  | error e => rw [hsig] at h; exact Except.noConfusion h
  | ok l =>
    rw [hsig] at h
    simp only [except_bind_ok] at h
    by_cases hl : l.isEmpty
    · rw [if_pos hl] at h
      cases htext : fx.fixesByText with
      | error e => rw [htext] at h; exact Except.noConfusion h
      | ok lt =>
        rw [htext] at h
        simp only [except_bind_ok] at h
        cases hcode : fx.fixCode with
        | error e => rw [hcode] at h; exact Except.noConfusion h
        | ok c =>
          rw [hcode] at h
          simp only [except_bind_ok, pure, Except.pure, Except.ok.injEq] at h
          exact ⟨c, rfl, h.symm⟩
    · rw [if_neg hl] at h
      simp only [pure, Except.pure, except_bind_ok] at h
      cases hcode : fx.fixCode with
      | error e => rw [hcode] at h; exact Except.noConfusion h
      | ok c =>
        rw [hcode] at h
        simp only [except_bind_ok, pure, Except.pure, Except.ok.injEq] at h
        exact ⟨c, rfl, h.symm⟩

lemma fixerBody_ok_of_oracles (fx : FixStep) (s : GState)
    (h1 : ∃ l, fx.fixesBySig = .ok l) (h2 : ∃ l, fx.fixesByText = .ok l)
    (h3 : ∃ c, fx.fixCode = .ok c) :
    ∃ r, fixerBody fx s = .ok r := by
  obtain ⟨l, hl⟩ := h1
  obtain ⟨lt, hlt⟩ := h2
  obtain ⟨c, hc⟩ := h3
  unfold fixerBody
  rw [hl]
  simp only [except_bind_ok]
  by_cases he : l.isEmpty
  · rw [if_pos he, hlt]
    simp only [except_bind_ok]
    rw [hc]
    exact ⟨_, rfl⟩
  · rw [if_neg he]
    simp only [pure, Except.pure, except_bind_ok]
    rw [hc]
    exact ⟨_, rfl⟩

/-- Lemma: `node_fixer` either leaves the state untouched or performs exactly the
repair update. -/
lemma node_fixer_cases (fx : FixStep) (s : GState) :
    node_fixer fx s = s ∨
    ∃ c, fx.fixCode = .ok c ∧ node_fixer fx s = repairUpdate s c := by
  unfold node_fixer
  by_cases he : errTruthy s.error
  · rw [if_pos he]
    cases hb : fixerBody fx s with
    | error e => exact Or.inl rfl
    | ok r =>
      obtain ⟨c, hc, hr⟩ := fixerBody_ok_shape fx s r hb
      exact Or.inr ⟨c, hc, hr⟩
  · rw [if_neg he]
    exact Or.inl rfl

lemma node_fixer_preserves (fx : FixStep) (s : GState) :
    (node_fixer fx s).error = s.error ∧ (node_fixer fx s).result = s.result ∧
    (node_fixer fx s).inputsRequired = s.inputsRequired ∧
    s.attempts ≤ (node_fixer fx s).attempts ∧
    (node_fixer fx s).attempts ≤ s.attempts + 1 := by
  rcases node_fixer_cases fx s with h | ⟨c, _, h⟩ <;> rw [h] <;> simp [repairUpdate]

lemma node_executor_fields (out : ExecOutcome) (s : GState) :
    (node_executor out s).attempts = s.attempts ∧
    (node_executor out s).result = some out ∧
    (node_executor out s).error = (if out.returncode = 0 then none else some out.stderr) := by
  unfold node_executor
  by_cases h0 : out.returncode = 0
  · rw [if_pos h0, if_pos h0]
    exact ⟨rfl, rfl, rfl⟩
  · rw [if_neg h0, if_neg h0]
    by_cases hi : out.inputsRequired ≠ []
    · rw [if_pos hi]; exact ⟨rfl, rfl, rfl⟩
    · rw [if_neg hi]; exact ⟨rfl, rfl, rfl⟩

lemma decide_next_executor {s : GState} (h : decide_next s = .executor) :
    errTruthy s.error = true ∧ s.attempts < 3 := by
  unfold decide_next at h
  split at h
  · rename_i hc; exact ⟨hc.1, hc.2⟩
  · cases h

/-! ### Attempt bound and termination (C3) -/

lemma graphLoop_attempts_le (env : GEnv) :
    ∀ fuel k s t, s.attempts ≤ 2 → graphLoop env fuel k s = some t → t.attempts ≤ 3 := by
  intro fuel
  induction fuel with
  | zero => intro k s t _ h; cases h
  | succ n ih =>
    intro k s t hs h
    simp only [graphLoop] at h
    have ha1 := (node_executor_fields (env.execOut k) s).1
    have ha2 := (node_fixer_preserves (env.fix k) (node_executor (env.execOut k) s)).2.2.2.2
    cases hd : decide_next (node_fixer (env.fix k) (node_executor (env.execOut k) s)) with
    | executor =>
      rw [hd] at h
      exact ih (k + 1) _ t (by have := (decide_next_executor hd).2; omega) h
    | done =>
      rw [hd] at h
      cases h
      omega


lemma node_fixer_total_attempts (fx : FixStep) (s : GState)
    (h1 : ∃ l, fx.fixesBySig = .ok l) (h2 : ∃ l, fx.fixesByText = .ok l)
    (h3 : ∃ c, fx.fixCode = .ok c) (he : errTruthy s.error = true) :
    (node_fixer fx s).attempts = s.attempts + 1 := by
  obtain ⟨r, hr⟩ := fixerBody_ok_of_oracles fx s h1 h2 h3
  obtain ⟨c, _, hshape⟩ := fixerBody_ok_shape fx s r hr
  unfold node_fixer
  rw [if_pos he, hr, hshape]
  rfl

lemma graphLoop_terminates (env : GEnv) (hT : FixerTotal env) :
    ∀ fuel k s, 1 ≤ fuel → 4 ≤ s.attempts + fuel → graphLoop env fuel k s ≠ none := by
  intro fuel
  induction fuel with
  | zero => intro k s h; omega
  | succ n ih =>
    intro k s _ hsum h
    simp only [graphLoop] at h
    cases hd : decide_next (node_fixer (env.fix k) (node_executor (env.execOut k) s)) with
    | done => rw [hd] at h; cases h
    | executor =>
      rw [hd] at h
      obtain ⟨herr2, hatt2⟩ := decide_next_executor hd
      -- the fixer preserves error, so the pre-fixer error was truthy and the
      -- total fixer incremented attempts
      have hpres := (node_fixer_preserves (env.fix k) (node_executor (env.execOut k) s)).1
      have herr1 : errTruthy (node_executor (env.execOut k) s).error = true := by
        rw [hpres] at herr2; exact herr2
      have hattfix : (node_fixer (env.fix k) (node_executor (env.execOut k) s)).attempts
          = (node_executor (env.execOut k) s).attempts + 1 :=
        node_fixer_total_attempts _ _ (hT k).1 (hT k).2.1 (hT k).2.2 herr1
      have ha1 := (node_executor_fields (env.execOut k) s).1
      cases n with
      | zero =>
        -- fuel exhausted: then attempts were already ≥ 3, contradicting the route
        omega
      | succ m =>
        exact ih (k + 1) _ (by omega) (by omega) h

/-- C3 (amended).  The first conjunct is the claim's attempt cap, which
holds unconditionally: any run that reaches END has `attempts ≤ 3`.  The
second conjunct is the termination half, which holds *provided every REPAIR
step completes without an internal exception*: fuel 3 always suffices.  (The
unamended termination claim is refuted by `stuck_run_never_terminates`: a
repairer that raises on every call leaves `attempts` unchanged, and
`decide_next` then routes back to the executor forever.) -/
theorem attempts_bounded_and_termination :
    (∀ env task files t0 fuel s,
        runGraph env task files t0 fuel = .ok (some s) → s.attempts ≤ 3)
    ∧ (∀ env task files t0, FixerTotal env →
        runGraph env task files t0 3 ≠ .ok none) := by
  constructor
  · intro env task files t0 fuel s h
    unfold runGraph at h
    cases hg : env.gen with
    | error e => rw [hg] at h; cases h
    | ok g =>
      rw [hg] at h
      simp only [except_bind_ok, pure, Except.pure, Except.ok.injEq] at h
      exact graphLoop_attempts_le env fuel 0 _ s (by simp [node_writer, initial_state]) h
  · intro env task files t0 hT h
    unfold runGraph at h
    cases hg : env.gen with
    | error e => rw [hg] at h; cases h
    | ok g =>
      rw [hg] at h
      simp only [except_bind_ok, pure, Except.pure, Except.ok.injEq] at h
      exact graphLoop_terminates env hT 3 0 _ (by omega)
        (by simp [node_writer, initial_state]) h

/-- Witness for C3: both hypotheses discharged at a concrete run. -/
theorem attempts_bounded_and_termination_witness :
    demoFinal.attempts ≤ 3 ∧
    runGraph demoEnv "print hello world in python" [] none 3 ≠ .ok none := by
  constructor
  · exact attempts_bounded_and_termination.1 demoEnv "print hello world in python"
      [] none 3 demoFinal (by rfl)
  · exact attempts_bounded_and_termination.2 demoEnv "print hello world in python"
      [] none (fun k => ⟨⟨[], rfl⟩, ⟨[], rfl⟩, ⟨"print(1)", rfl⟩⟩)

lemma stuck_fixer_id (k : Nat) (s : GState) :
    node_fixer (stuckEnv.fix k) s = s := by
  rcases node_fixer_cases (stuckEnv.fix k) s with h | ⟨c, hc, _⟩
  · exact h
  · cases hc

lemma stuck_loop_none : ∀ fuel k s, s.attempts < 3 →
    graphLoop stuckEnv fuel k s = none := by
  intro fuel
  induction fuel with
  | zero => intro k s _; rfl
  | succ n ih =>
    intro k s hs
    simp only [graphLoop, stuck_fixer_id]
    have herr : errTruthy (node_executor (stuckEnv.execOut k) s).error = true := by
      have := (node_executor_fields (stuckEnv.execOut k) s).2.2
      rw [this]
      rfl
    have hatt : (node_executor (stuckEnv.execOut k) s).attempts = s.attempts :=
      (node_executor_fields (stuckEnv.execOut k) s).1
    have hd : decide_next (node_executor (stuckEnv.execOut k) s) = .executor := by
      unfold decide_next
      rw [if_pos ⟨herr, by omega⟩]
    rw [hd]
    exact ih (k + 1) _ (by omega)

/-- C3 counterexample: the claim's termination half is false as stated.
With a repairer that raises on every invocation and an execution that always
fails, every iteration leaves the state's `attempts` at 1, `decide_next`
routes back to the executor forever, and no fuel finishes the run. -/
theorem stuck_run_never_terminates :
    ¬ GraphTerminates stuckEnv "loop forever" [] none := by
  rintro ⟨fuel, h⟩
  apply h
  unfold runGraph
  have hg : stuckEnv.gen = .ok ("while True: pass", "python") := rfl
  rw [hg]
  simp only [except_bind_ok]
  rw [stuck_loop_none fuel 0 _ (by simp [node_writer, initial_state])]
  rfl

/-! ### Timeout clamp across REPAIR (C5) -/

/-- C5 counterexample: a caller-supplied timeout hint of 400 reaches the
state unchanged, and the first REPAIR sets `min(300, max(60, 400+30)) = 300`,
*decreasing* the timeout across that REPAIR transition — refuting the claim's
unconditional nondecrease. -/
theorem repair_timeout_decreases_from_400 :
    c5PreRepair.timeout = 400 ∧ errTruthy c5PreRepair.error = true ∧
    (node_fixer okFix c5PreRepair).timeout = 300 ∧
    (node_fixer okFix c5PreRepair).timeout < c5PreRepair.timeout := by
  have h1 : c5PreRepair.timeout = 400 := rfl
  have h3 : (node_fixer okFix c5PreRepair).timeout = 300 := rfl
  refine ⟨h1, rfl, h3, ?_⟩
  rw [h1, h3]
  decide

/-- C5 (amended): REPAIR sets exactly
`timeout := min(300, max(60, timeout + 30))`, hence the new value always lies
in `[60, 300]`; it is nondecreasing whenever the incoming timeout is at most
300 — which holds for every run whose caller-supplied hint is ≤ 300, and for
every state after a first REPAIR.  (A hint above 300 is clamped *down*, per
the counterexample.) -/
theorem repair_timeout_clamp (fx : FixStep) (s : GState)
    (h1 : ∃ l, fx.fixesBySig = .ok l) (h2 : ∃ l, fx.fixesByText = .ok l)
    (h3 : ∃ c, fx.fixCode = .ok c) (he : errTruthy s.error = true)
    (hto : s.timeout ≤ 300) :
    (node_fixer fx s).timeout
      = min 300 (max 60 ((if s.timeout = 0 then 60 else s.timeout) + 30)) ∧
    s.timeout ≤ (node_fixer fx s).timeout ∧
    60 ≤ (node_fixer fx s).timeout ∧ (node_fixer fx s).timeout ≤ 300 := by
  obtain ⟨r, hr⟩ := fixerBody_ok_of_oracles fx s h1 h2 h3
  obtain ⟨c, _, hshape⟩ := fixerBody_ok_shape fx s r hr
  have hnf : node_fixer fx s = repairUpdate s c := by
    unfold node_fixer
    rw [if_pos he, hr, hshape]
  rw [hnf]
  refine ⟨rfl, ?_, ?_, ?_⟩
  · show s.timeout ≤ min 300 (max 60 ((if s.timeout = 0 then 60 else s.timeout) + 30))
    refine le_min hto ?_
    by_cases h0 : s.timeout = 0
    · rw [if_pos h0, h0]
      exact le_trans (by norm_num) (le_max_left 60 90)
    · rw [if_neg h0]
      exact le_trans (by omega) (le_max_right 60 (s.timeout + 30))
  · show (60 : Int) ≤ min 300 (max 60 ((if s.timeout = 0 then 60 else s.timeout) + 30))
    exact le_min (by norm_num) (le_max_left _ _)
  · show min 300 (max 60 ((if s.timeout = 0 then 60 else s.timeout) + 30)) ≤ (300 : Int)
    exact min_le_left _ _


/-- Witness for C5: the clamp theorem applied at a concrete repair step. -/
theorem repair_timeout_clamp_witness :
    (node_fixer okFix c5WitState).timeout
      = min 300 (max 60 ((if c5WitState.timeout = 0 then 60 else c5WitState.timeout) + 30)) ∧
    c5WitState.timeout ≤ (node_fixer okFix c5WitState).timeout ∧
    60 ≤ (node_fixer okFix c5WitState).timeout ∧
    (node_fixer okFix c5WitState).timeout ≤ 300 :=
  repair_timeout_clamp okFix c5WitState ⟨[], rfl⟩ ⟨[], rfl⟩ ⟨"fixed source", rfl⟩
    rfl (by decide)

/-! ### Error/exit-code invariant (C8) -/


/-- C8: at every point between state-machine steps, `error` is set iff the
last result's exit code is nonzero — every nonzero-exit run stores that run's
stderr into `error`, every zero-exit run clears it, and the writer/fixer nodes
preserve both fields. -/
theorem error_iff_nonzero_exit {s : GState} (h : Reach s) : ErrInvariant s := by
  induction h with
  | start gen task files t0 =>
    refine ⟨?_, ?_⟩
    · intro out hout
      simp [node_writer, initial_state] at hout
    · intro _
      rfl
  | exec out hprev ih =>
    rename_i s0
    obtain ⟨_, hres, herr⟩ := node_executor_fields out s0
    refine ⟨?_, ?_⟩
    · intro out2 hout2
      rw [hres] at hout2
      cases hout2
      constructor
      · intro h0
        rw [herr, if_pos h0]
      · intro h0
        rw [herr, if_neg h0]
    · intro hnone
      rw [hres] at hnone
      cases hnone
  | fix fx hprev ih =>
    rename_i s0
    obtain ⟨herr, hres, _⟩ := node_fixer_preserves fx s0
    refine ⟨?_, ?_⟩
    · intro out2 hout2
      rw [hres] at hout2
      rw [herr]
      exact ih.1 out2 hout2
    · intro hnone
      rw [hres] at hnone
      rw [herr]
      exact ih.2 hnone

/-- Witness for C8: the invariant at the concrete reachable state of the
demo run (writer, then a successful execution, then the no-op fixer). -/
theorem error_iff_nonzero_exit_witness : ErrInvariant demoFinal :=
  error_iff_nonzero_exit
    (Reach.fix (demoEnv.fix 0)
      (Reach.exec (demoEnv.execOut 0)
        (Reach.start ("print(\x22hello world\x22)", "python")
          "print hello world in python" [] none)))

/-! ### Atomicity of REPAIR on failure (C10) -/

lemma node_fixer_eq_of_bodyError (fx : FixStep) (s : GState)
    (h : fixerBody fx s = .error ()) : node_fixer fx s = s := by
  unfold node_fixer
  split
  · rw [h]
  · rfl

lemma fixerBody_error_of_sig (fx : FixStep) (s : GState)
    (h : fx.fixesBySig = .error ()) : fixerBody fx s = .error () := by
  unfold fixerBody
  rw [h]
  rfl

lemma fixerBody_error_of_text (fx : FixStep) (s : GState)
    (h1 : fx.fixesBySig = .ok []) (h2 : fx.fixesByText = .error ()) :
    fixerBody fx s = .error () := by
  unfold fixerBody
  rw [h1]
  simp only [except_bind_ok]
  rw [if_pos (by rfl), h2]
  rfl

lemma fixerBody_error_of_code (fx : FixStep) (s : GState)
    (h : fx.fixCode = .error ()) : fixerBody fx s = .error () := by
  unfold fixerBody
  cases hsig : fx.fixesBySig with
  | error e => cases e; rfl
  | ok l =>
    simp only [except_bind_ok]
    by_cases hl : l.isEmpty
    · rw [if_pos hl]
      cases htext : fx.fixesByText with
      | error e => cases e; rfl
      | ok lt =>
        simp only [except_bind_ok]
        rw [h]
        rfl
    · rw [if_neg hl]
      simp only [pure, Except.pure, except_bind_ok]
      rw [h]
      rfl

/-- C10: the REPAIR step is atomic on failure.  If the fix retrieval (by
signature, or by raw text when the first query is empty) or the repairer call
raises, `node_fixer` returns the state *entirely unchanged* — in particular
`code`, `attempts` and `timeout`.  When a repaired source is obtained, the
update stores it and only then bumps `attempts` and the timeout, exactly as
`repairUpdate` states. -/
theorem node_fixer_atomic (fx : FixStep) (s : GState) :
    ((fx.fixesBySig = .error () ∨
      (fx.fixesBySig = .ok [] ∧ fx.fixesByText = .error ()) ∨
      fx.fixCode = .error ()) → node_fixer fx s = s)
    ∧ (∀ c, fx.fixCode = .ok c → errTruthy s.error = true →
        (∃ l, fx.fixesBySig = .ok l) → (∃ l, fx.fixesByText = .ok l) →
        node_fixer fx s = repairUpdate s c) := by
  constructor
  · intro hdisj
    rcases hdisj with ha | ⟨hb1, hb2⟩ | hc
    · exact node_fixer_eq_of_bodyError fx s (fixerBody_error_of_sig fx s ha)
    · exact node_fixer_eq_of_bodyError fx s (fixerBody_error_of_text fx s hb1 hb2)
    · exact node_fixer_eq_of_bodyError fx s (fixerBody_error_of_code fx s hc)
  · intro c hc he hsig htext
    obtain ⟨r, hr⟩ := fixerBody_ok_of_oracles fx s hsig htext ⟨c, hc⟩
    obtain ⟨c2, hc2, hshape⟩ := fixerBody_ok_shape fx s r hr
    rw [hc] at hc2
    cases hc2
    unfold node_fixer
    rw [if_pos he, hr, hshape]

/-- Witness for C10: both halves at concrete fixer steps. -/
theorem node_fixer_atomic_witness :
    node_fixer { fixesBySig := .error (), fixesByText := .ok [], fixCode := .ok "x" }
      c5WitState = c5WitState ∧
    node_fixer okFix c5WitState = repairUpdate c5WitState "fixed source" :=
  ⟨(node_fixer_atomic _ _).1 (Or.inl rfl),
   (node_fixer_atomic _ _).2 "fixed source" rfl rfl ⟨[], rfl⟩ ⟨[], rfl⟩⟩

/-! ### Inputs-required handling (C2) -/

/-- C2 counterexample: with a nonzero-exit result carrying nonempty
`inputs_required`, the orchestrator *does* perform a REPAIR.  Neither
`node_fixer` (which only checks `error`) nor `decide_next` (which only checks
`error` and `attempts`) consults `inputs_required`: the repairer is invoked,
the code is replaced, and the run is routed back to the executor — refuting
"does not perform a REPAIR step". -/
theorem inputs_required_does_not_short_circuit :
    inputsOut.inputsRequired = ["report.pdf"] ∧
    inputsOut.returncode ≠ 0 ∧
    c2PostExec.inputsRequired = ["report.pdf"] ∧
    (node_fixer okFix c2PostExec).code = some "fixed source" ∧
    (node_fixer okFix c2PostExec).code ≠ c2PostExec.code ∧
    (node_fixer okFix c2PostExec).attempts = c2PostExec.attempts + 1 ∧
    decide_next (node_fixer okFix c2PostExec) = .executor := by
  refine ⟨rfl, by decide, rfl, rfl, by decide, rfl, by decide⟩

/-- C2 (amended): on a nonzero-exit result with nonempty
`inputs_required`, the state records the list, the final payload bubbles it to
the caller, and the fixer preserves it — but the graph still performs REPAIR
as for any other error: with working oracles the repairer's output replaces
the code, and while the post-repair `attempts` is below 3 the run is routed
back to the executor rather than ended. -/
theorem inputs_required_recorded_and_bubbled
    (out : ExecOutcome) (fx : FixStep) (s : GState) (c : String)
    (hne : out.inputsRequired ≠ []) (hrc : out.returncode ≠ 0) :
    (node_executor out s).inputsRequired = out.inputsRequired ∧
    (finalAnswer (node_executor out s)).inputsRequired = out.inputsRequired ∧
    (node_fixer fx (node_executor out s)).inputsRequired = out.inputsRequired ∧
    (out.stderr ≠ "" → (node_executor out s).attempts < 2 →
      fx.fixCode = .ok c → (∃ l, fx.fixesBySig = .ok l) → (∃ l, fx.fixesByText = .ok l) →
      node_fixer fx (node_executor out s) = repairUpdate (node_executor out s) c ∧
      decide_next (node_fixer fx (node_executor out s)) = .executor) := by
  have hinp : (node_executor out s).inputsRequired = out.inputsRequired := by
    unfold node_executor
    rw [if_neg hrc, if_pos hne]
  have herr := (node_executor_fields out s).2.2
  refine ⟨hinp, hinp, ?_, ?_⟩
  · rw [(node_fixer_preserves fx (node_executor out s)).2.2.1, hinp]
  · intro hstderr hatt hcode hsig htext
    have he : errTruthy (node_executor out s).error = true := by
      rw [herr, if_neg hrc]
      simpa [errTruthy] using hstderr
    obtain ⟨r, hr⟩ := fixerBody_ok_of_oracles fx (node_executor out s) hsig htext ⟨c, hcode⟩
    obtain ⟨c2, hc2, hshape⟩ := fixerBody_ok_shape fx (node_executor out s) r hr
    rw [hcode] at hc2
    cases hc2
    have hupd : node_fixer fx (node_executor out s) = repairUpdate (node_executor out s) c := by
      unfold node_fixer
      rw [if_pos he, hr, hshape]
    refine ⟨hupd, ?_⟩
    rw [hupd]
    unfold decide_next
    rw [if_pos ?_]
    constructor
    · show errTruthy (repairUpdate (node_executor out s) c).error = true
      have : (repairUpdate (node_executor out s) c).error = (node_executor out s).error := rfl
      rw [this]
      exact he
    · show (repairUpdate (node_executor out s) c).attempts < 3
      have : (repairUpdate (node_executor out s) c).attempts
          = (node_executor out s).attempts + 1 := rfl
      omega

/-- Witness for C2 (amended): the concrete `report.pdf` scenario. -/
theorem inputs_required_recorded_witness :
    c2PostExec.inputsRequired = inputsOut.inputsRequired ∧
    node_fixer okFix c2PostExec = repairUpdate c2PostExec "fixed source" ∧
    decide_next (node_fixer okFix c2PostExec) = .executor := by
  have h := inputs_required_recorded_and_bubbled inputsOut okFix
    (node_writer ("print(open(\x27report.pdf\x27).read())", "python")
      (initial_state "summarize report.pdf" [] none))
    "fixed source" (by decide) (by decide)
  have h4 := h.2.2.2 (by decide) (by decide) rfl ⟨[], rfl⟩ ⟨[], rfl⟩
  exact ⟨h.1, h4.1, h4.2⟩

/-! ### Auto-install retry (C6) -/

/-- C6 (code bug, evaluation at the failing input).  The claim promises a
single retry whose payload's requirements contain `pandas` exactly once.  On
the failing input, the retry-payload construction at line 179 computes
`retry_payload.get("requirements", []) | missing_pkgs` — a Python *list*
or-ed with a *set* — which raises `TypeError` before any retry can be posted.
The exception escapes to the outer handler: exactly one Runner call is made
(no retry), and `execute` returns returncode 1 with the `TypeError` text in
stderr instead of the retried result. -/
theorem auto_install_retry_raises_typeerror :
    (execute c6Env c6Code "python" 60 [] true true [] "bridge").calls
      = [{ language := "python", code := c6Code, timeout := 70,
           requirements := ["pandas"], network := "bridge", files_b64 := [],
           httpTolerance := 130 }] ∧
    (execute c6Env c6Code "python" 60 [] true true [] "bridge").ret.result
      = .jobj [("returncode", .jint 1), ("stdout", .jstr ""),
               ("stderr", .jstr
                 "Runner error: unsupported operand type(s) for |: \x27list\x27 and \x27set\x27")] ∧
    (execute c6Env c6Code "python" 60 [] true true [] "bridge").ret.inputs_required
      = [] := by
  exact ⟨rfl, rfl, rfl⟩

/-! ### Payload assembly and adaptive timeout (C7) -/

lemma dedupFirstAux_toFinset :
    ∀ (l seen : List String),
      (dedupFirstAux seen l).toFinset = l.toFinset \ seen.toFinset := by
  intro l
  induction l with
  | nil => intro seen; simp [dedupFirstAux]
  | cons r rs ih =>
    intro seen
    unfold dedupFirstAux
    by_cases hr : r ∈ seen
    · rw [if_pos hr, ih seen]
      ext x
      by_cases hx : x = r <;> simp [hx, hr]
    · rw [if_neg hr]
      simp only [List.toFinset_cons, ih (r :: seen)]
      ext x
      by_cases hx : x = r <;> simp [hx, hr]

lemma pyListSetUnion_toFinset (l m : List String) :
    (pyListSetUnion l m).toFinset = l.toFinset ∪ m.toFinset := by
  unfold pyListSetUnion
  rw [dedupFirstAux_toFinset]
  simp

/-- C7: for every python execution with `auto_requirements` on and a
nonzero state timeout, the first (and principal) request sent to the Runner
carries `timeout = max(state.timeout, 30 + 20·[inferred ≠ ∅] + 20·[heavy])`,
its requirements are exactly the set union of the caller's requirements and
the inferred packages, and the HTTP call's wall-clock tolerance is that
timeout plus 60 seconds. -/
theorem execute_payload_shape (env : ExecEnv) (code : String) (timeout : Int)
    (reqs : List String) (allowNet autoReq : Bool)
    (files : List (String × List Nat)) (net : String)
    (ht : timeout ≠ 0) (hauto : autoReq = true) :
    ∃ p rest,
      (execute env code "python" timeout reqs allowNet autoReq files net).calls
        = p :: rest ∧
      p.timeout = max timeout
        (30 + (if env.inferred ≠ [] then (20 : Int) else 0)
          + (if env.inferred.any (· ∈ heavyLibs) then (20 : Int) else 0)) ∧
      p.requirements.toFinset = reqs.toFinset ∪ env.inferred.toFinset ∧
      p.httpTolerance = p.timeout + 60 := by
  subst hauto
  have hinf : usedInferred env "python" true = env.inferred := by
    unfold usedInferred
    simp
  refine ⟨buildPayload env code "python" timeout reqs allowNet true files net, ?_⟩
  have hcalls : ∃ rest,
      (execute env code "python" timeout reqs allowNet true files net).calls
        = buildPayload env code "python" timeout reqs allowNet true files net :: rest := by
    unfold execute
    cases executeTryBody env
        (buildPayload env code "python" timeout reqs allowNet true files net)
        (timeoutFinalOf env "python" timeout true) "python" with
    | ok pr => exact ⟨pr.2, rfl⟩
    | error e => exact ⟨[], rfl⟩
  obtain ⟨rest, hrest⟩ := hcalls
  refine ⟨rest, hrest, ?_, ?_, ?_⟩
  · show timeoutFinalOf env "python" timeout true = _
    unfold timeoutFinalOf
    rw [hinf, if_neg ht]
  · show (if ("python" = "python" ∧ (true : Bool) ∧ usedInferred env "python" true ≠ [])
        then pyListSetUnion reqs (usedInferred env "python" true)
        else reqs).toFinset = _
    rw [hinf]
    by_cases hi : env.inferred = []
    · rw [if_neg (by simp [hi]), hi]
      simp
    · rw [if_pos (by simp [hi]), pyListSetUnion_toFinset]
  · rfl


/-- Witness for C7: the payload-shape theorem at a concrete call. -/
theorem execute_payload_shape_witness :
    ∃ p rest,
      (execute c7Env "import pandas" "python" 60 ["requests"] true true [] "bridge").calls
        = p :: rest ∧
      p.timeout = max 60
        (30 + (if c7Env.inferred ≠ [] then (20 : Int) else 0)
          + (if c7Env.inferred.any (· ∈ heavyLibs) then (20 : Int) else 0)) ∧
      p.requirements.toFinset
        = (["requests"] : List String).toFinset ∪ c7Env.inferred.toFinset ∧
      p.httpTolerance = p.timeout + 60 :=
  execute_payload_shape c7Env "import pandas" 60 ["requests"] true true [] "bridge"
    (by decide) rfl

/-! ### Totality and result shape of `execute` (C9) -/


lemma fallbackObj_good (raw : JVal) : GoodResult (fallbackObj raw) :=
  ⟨_, rfl, ⟨1, rfl⟩, ⟨"", rfl⟩, ⟨reprJVal raw, rfl⟩⟩

lemma normalizeResp_good (raw : JVal) (h : WellShaped raw) :
    ∃ gs, normalizeResp raw = .ok (.jobj gs) ∧ TypedTriple gs := by
  obtain ⟨fs, rfl, h1, h2⟩ := h
  unfold normalizeResp
  simp only [pyIn, except_bind_ok]
  by_cases h3 : hasTriple fs
  · have hc : ((jLookup fs "returncode").isSome && (jLookup fs "stdout").isSome
        && (jLookup fs "stderr").isSome) = true := h3
    rw [if_pos hc]
    exact ⟨fs, rfl, h1 h3⟩
  · have hc : ((jLookup fs "returncode").isSome && (jLookup fs "stdout").isSome
        && (jLookup fs "stderr").isSome) = false := by
      simpa [hasTriple] using h3
    rw [if_neg (by simp [hc])]
    cases hres : jLookup fs "result" with
    | none =>
      obtain ⟨gs, hgs, htt⟩ := fallbackObj_good (.jobj fs)
      exact ⟨gs, by rw [hgs]; rfl, htt⟩
    | some v =>
      cases v with
      | jobj m =>
        exact ⟨m, rfl, h2 (by simpa [hasTriple] using h3) m hres⟩
      | jnull =>
        obtain ⟨gs, hgs, htt⟩ := fallbackObj_good (.jobj fs)
        exact ⟨gs, by rw [hgs]; rfl, htt⟩
      | jbool b =>
        obtain ⟨gs, hgs, htt⟩ := fallbackObj_good (.jobj fs)
        exact ⟨gs, by rw [hgs]; rfl, htt⟩
      | jint n =>
        obtain ⟨gs, hgs, htt⟩ := fallbackObj_good (.jobj fs)
        exact ⟨gs, by rw [hgs]; rfl, htt⟩
      | jstr s =>
        obtain ⟨gs, hgs, htt⟩ := fallbackObj_good (.jobj fs)
        exact ⟨gs, by rw [hgs]; rfl, htt⟩
      | jarr es =>
        obtain ⟨gs, hgs, htt⟩ := fallbackObj_good (.jobj fs)
        exact ⟨gs, by rw [hgs]; rfl, htt⟩

lemma executeTryBody_good (env : ExecEnv) (payload : SentReq) (tf : Int)
    (language : String)
    (hsend : ∀ k raw, env.send k = .ok raw → WellShaped raw) :
    ∀ r, executeTryBody env payload tf language = .ok r → GoodResult r.1.result := by
  intro r h
  unfold executeTryBody at h
  cases hsd : env.send 0 with
  | error e => rw [hsd] at h; exact Except.noConfusion h
  | ok raw =>
    rw [hsd] at h
    simp only [except_bind_ok] at h
    obtain ⟨gs, hnr, htt⟩ := normalizeResp_good raw (hsend 0 raw hsd)
    rw [hnr] at h
    simp only [except_bind_ok, pyGet] at h
    obtain ⟨⟨n, hn⟩, ⟨s1, hs1⟩, ⟨s2, hs2⟩⟩ := htt
    rw [hs2, hn] at h
    split at h
    · -- inputs_required nonempty: result passed through
      simp only [pure, Except.pure, Except.ok.injEq] at h
      subst h
      exact ⟨gs, rfl, ⟨n, hn⟩, ⟨s1, hs1⟩, ⟨s2, hs2⟩⟩
    · split at h
      · -- missing-module branch
        split at h
        · -- similar error in memory: result passed through
          simp only [pure, Except.pure, Except.ok.injEq] at h
          subst h
          exact ⟨gs, rfl, ⟨n, hn⟩, ⟨s1, hs1⟩, ⟨s2, hs2⟩⟩
        · split at h
          · -- missing_pkgs nonempty: line 179 raises before any retry
            simp only [pyListOrSet, except_bind_error] at h
            exact Except.noConfusion h
          · simp only [pure, Except.pure, Except.ok.injEq] at h
            subst h
            exact ⟨gs, rfl, ⟨n, hn⟩, ⟨s1, hs1⟩, ⟨s2, hs2⟩⟩
      · simp only [pure, Except.pure, Except.ok.injEq] at h
        subst h
        exact ⟨gs, rfl, ⟨n, hn⟩, ⟨s1, hs1⟩, ⟨s2, hs2⟩⟩

/-- C9: the orchestrator-side `execute` is total at its interface: for
every input it returns (never raises — every escaping exception is converted
by the outer handler), and the returned dict's `result` value is a JSON object
with an integer `returncode` and string `stdout`/`stderr` — transport
failures and the normalization fallback construct one, and pass-through
responses carry one whenever the Runner's responses are `WellShaped` (which
all responses of the modelled runner are). -/
theorem execute_always_nested_result (env : ExecEnv) (code language : String)
    (timeout : Int) (reqs : List String) (allowNet autoReq : Bool)
    (files : List (String × List Nat)) (net : String)
    (hsend : ∀ k raw, env.send k = .ok raw → WellShaped raw) :
    GoodResult
      (execute env code language timeout reqs allowNet autoReq files net).ret.result := by
  unfold execute
  cases htb : executeTryBody env
      (buildPayload env code language timeout reqs allowNet autoReq files net)
      (timeoutFinalOf env language timeout autoReq) language with
  | ok pr =>
    exact executeTryBody_good env _ _ language hsend pr htb
  | error e =>
    exact ⟨_, rfl, ⟨1, rfl⟩, ⟨"", rfl⟩, ⟨"Runner error: " ++ e, rfl⟩⟩


/-- Witness for C9: the shape theorem at a concrete call. -/
theorem execute_always_nested_result_witness :
    GoodResult
      (execute c9Env "print(\x22hello world\x22)" "python" 60 [] true true [] "bridge").ret.result := by
  apply execute_always_nested_result
  intro k raw h
  have hr : Except.ok (JVal.jobj [("returncode", .jint 0),
      ("stdout", .jstr "hello world\n"), ("stderr", .jstr "")]) = Except.ok raw := h
  cases hr
  refine ⟨_, rfl, fun _ => ⟨⟨0, rfl⟩, ⟨"hello world\n", rfl⟩, ⟨"", rfl⟩⟩, fun hf => ?_⟩
  exact absurd hf (by decide)

end NeuroForge
